import Mathlib

/-! PoolManager: the actor factory (PoolFactory_Actor.cpp)

A shallow embedding of `UPoolFactory_Actor` and a verification of its contract.

The factory only sequences calls into the hosting engine.  The engine is
represented by an explicit state: the world the factory lives in, a store with
the engine-side data of every actor, and a log of the calls that reached the
engine or a user callback.  Every function of the source file is a program in
the `Engine` monad (state passing, with a fatal assertion as the error case).

Conventions
* a nullable C++ pointer is an `Option`; `none` is `nullptr`;
* assertions (`checkf`, `CastChecked`) are enabled, as in every non-shipping
  build, and abort the run with a `Fatal` value;
* coordinates are exact rationals;
* user callbacks are total functions on the actor store: they may change any
  actor, they cannot abort the run and cannot rewrite the log.
-/

namespace PoolManager

/-! ## Engine value types -/

/-- Engine vector, three coordinates. -/
structure FVector where
  X : ℚ
  Y : ℚ
  Z : ℚ
deriving DecidableEq

/-- The one-argument constructor `FVector(InF)`: all three coordinates are `InF`. -/
def FVector.ofScalar (InF : ℚ) : FVector :=
  { X := InF, Y := InF, Z := InF }

/-- Engine rotation (a quaternion). -/
structure FQuat where
  X : ℚ
  Y : ℚ
  Z : ℚ
  W : ℚ
deriving DecidableEq

/-- Engine transform: rotation, location and scale. -/
structure FTransform where
  Rotation : FQuat
  Translation : FVector
  Scale3D : FVector
deriving DecidableEq

/-- The two engine constants used by `VECTOR_HALF_WORLD_MAX`; their values come
from engine headers and are a parameter of the development. -/
structure FEngineConstants where
  HALF_WORLD_MAX : ℚ
  THRESH_VECTOR_NORMALIZED : ℚ

/-- Engine class descriptor.  `bIsChildOfAActor` is the answer of
`IsChildOf(AActor::StaticClass())`. -/
structure UClass where
  Id : Nat
  bIsChildOfAActor : Bool
deriving DecidableEq

/-- Engine level. -/
structure ULevel where
  Id : Nat
deriving DecidableEq

/-- A non-null reference to an object.  The dynamic class of an object never
changes, so whether it derives from `AActor` is carried by the reference. -/
structure UObjectRef where
  Id : Nat
  bIsA_AActor : Bool
deriving DecidableEq

/-- A non-null reference to an actor (the pointee of an `AActor*`). -/
structure AActorRef where
  Id : Nat
deriving DecidableEq

/-- Implicit upcast `AActor*` to `UObject*`. -/
def AActorRef.toUObject (Actor : AActorRef) : UObjectRef :=
  { Id := Actor.Id, bIsA_AActor := true }

/-- Engine `Cast<AActor>(Src)`: null for a null pointer and for an object that is
not an actor, otherwise the same object seen as an actor. -/
def Cast_AActor (Src : Option UObjectRef) : Option AActorRef :=
  match Src with
  | none => none
  | some Obj => if Obj.bIsA_AActor then some { Id := Obj.Id } else none

/-- Engine `TSubclassOf<AActor>`: stores a class pointer as given. -/
structure TSubclassOf_AActor where
  Class : Option UClass

/-- Conversion of a `TSubclassOf<AActor>` back to `UClass*` (also its truth
value): the engine does a runtime type check and yields null unless the stored
class is a child of `AActor`. -/
def TSubclassOf_AActor.Get (Sub : TSubclassOf_AActor) : Option UClass :=
  match Sub.Class with
  | none => none
  | some Cls => if Cls.bIsChildOfAActor then some Cls else none

/-- Engine `ESpawnActorCollisionHandlingMethod`. -/
inductive ESpawnActorCollisionHandlingMethod where
  | Undefined
  | AlwaysSpawn
  | AdjustIfPossibleButAlwaysSpawn
  | AdjustIfPossibleButDontSpawnIfColliding
  | DontSpawnIfColliding
deriving DecidableEq

/-- Engine `FActorSpawnParameters`, the fields the factory sets. -/
structure FActorSpawnParameters where
  OverrideLevel : Option ULevel
  SpawnCollisionHandlingOverride : ESpawnActorCollisionHandlingMethod
  bDeferConstruction : Bool
  bNoFail : Bool
deriving DecidableEq

/-- Default-constructed `FActorSpawnParameters`. -/
def FActorSpawnParameters.Default : FActorSpawnParameters :=
  { OverrideLevel := none
    SpawnCollisionHandlingOverride := ESpawnActorCollisionHandlingMethod.Undefined
    bDeferConstruction := false
    bNoFail := false }

/-! ## Pool types (declared in the plugin headers) -/

/-- Modelled from the spec: the enumeration of pool states, declared in a
header that is not part of the source file.  The source names `Active`, the
spec names `Active` and `Inactive`; `None` stands for an object not handled by
the pool. -/
inductive EPoolObjectState where
  | None
  | Inactive
  | Active
deriving DecidableEq

/-- Modelled from the spec: the opaque handle of a pooled slot. -/
structure FPoolObjectHandle where
  Hash : Nat
deriving DecidableEq

/-- Modelled from the spec: the pool object record
(handle, object reference, active flag). -/
structure FPoolObjectData where
  bIsActive : Bool
  PoolObject : Option UObjectRef
  Handle : FPoolObjectHandle
deriving DecidableEq

/-- Default-constructed record: inactive, no object, empty handle. -/
def FPoolObjectData.Default : FPoolObjectData :=
  { bIsActive := false, PoolObject := none, Handle := { Hash := 0 } }

/-! ## Engine state -/

/-- Engine-side data of one actor. -/
structure AActorData where
  bIsValid : Bool
  bHidden : Bool
  bActorEnableCollision : Bool
  bActorTickEnabled : Bool
  Transform : FTransform
deriving DecidableEq

/-- The actor store: the data of every actor, by id. -/
abbrev FActorStore : Type := Nat → AActorData

/-- A user callback of a spawn request, `TFunction<void(const FPoolObjectData&)>`:
it reads the record and may change the actor store. -/
abbrev FPoolCallback : Type := FPoolObjectData → FActorStore → FActorStore

/-- Modelled from the spec: the two optional callbacks of a spawn request. -/
structure FSpawnCallbacks where
  OnPreRegistered : Option FPoolCallback
  OnPostSpawned : Option FPoolCallback

/-- Modelled from the spec: the spawn request
(class, placement, pre-assigned handle, callbacks). -/
structure FSpawnRequest where
  Class : Option UClass
  Transform : FTransform
  Handle : FPoolObjectHandle
  Callbacks : FSpawnCallbacks

/-- Engine world.  `SpawnActorResult` is what the low-level `SpawnActor` of this
world answers to a call: a new actor, or null. -/
structure UWorld where
  PersistentLevel : Option ULevel
  SpawnActorResult : UClass → FTransform → FActorSpawnParameters → Option AActorRef

/-- One entry of the call log. -/
inductive FEngineCall where
  | SpawnActor (Class : UClass) (Transform : FTransform)
      (SpawnParameters : FActorSpawnParameters) (Result : Option AActorRef)
  | OnPreRegistered (Data : FPoolObjectData)
  | FinishSpawning (Actor : AActorRef) (Transform : FTransform)
  | OnPostSpawned (Data : FPoolObjectData)
  | Destroy (Actor : AActorRef)
  | SetActorTransform (Actor : AActorRef) (Transform : FTransform)
  | SetActorLocation (Actor : AActorRef) (NewLocation : FVector)
  | SetActorHiddenInGame (Actor : AActorRef) (bNewHidden : Bool)
  | SetActorEnableCollision (Actor : AActorRef) (bNewActorEnableCollision : Bool)
  | SetActorTickEnabled (Actor : AActorRef) (bEnabled : Bool)
deriving DecidableEq

/-- The state the factory runs in. -/
structure FEngineState where
  World : Option UWorld
  Actors : FActorStore
  Log : List FEngineCall

/-- The ways a run is aborted. -/
inductive Fatal where
  | WorldIsNull
  | ClassToSpawnIsNull
  | NewActorWasNotSpawned
  | CastCheckedFailed
  | ActorIsNotValid
deriving DecidableEq

/-- A program over the engine state: it aborts, or returns a value and the next
state. -/
def Engine (α : Type) : Type :=
  FEngineState → Except Fatal (α × FEngineState)

/-- Sequencing of engine programs; an abort ends the run. -/
def Engine.bind {α β : Type} (m : Engine α) (f : α → Engine β) : Engine β :=
  fun s =>
    match m s with
    | Except.error e => Except.error e
    | Except.ok (a, s1) => f a s1

instance : Monad Engine where
  pure a := fun s => Except.ok (a, s)
  bind := Engine.bind

/-- Abort the run. -/
def fatal {α : Type} (e : Fatal) : Engine α :=
  fun _ => Except.error e

/-- Engine `checkf(Condition, ...)`. -/
def checkf (Condition : Bool) (e : Fatal) : Engine Unit :=
  if Condition then pure () else fatal e

/-- Engine `checkf(Pointer, ...)` on a pointer that is used afterwards: aborts
on null, otherwise the run goes on with the pointee. -/
def checkfPtr {α : Type} (Pointer : Option α) (e : Fatal) : Engine α :=
  match Pointer with
  | none => fatal e
  | some Pointee => pure Pointee

/-- Append one entry to the call log. -/
def logCall (c : FEngineCall) : Engine Unit :=
  fun s => Except.ok ((), { s with Log := s.Log ++ [c] })

/-- Change the data of one actor in the store. -/
def modifyActor (Actor : AActorRef) (f : AActorData → AActorData) : Engine Unit :=
  fun s => Except.ok ((),
    { s with Actors := Function.update s.Actors Actor.Id (f (s.Actors Actor.Id)) })

/-! ## Engine API used by the factory -/

/-- Engine `GetWorld()`. -/
def GetWorld : Engine (Option UWorld) :=
  fun s => Except.ok (s.World, s)

/-- Engine `World->SpawnActor(Class, &Transform, SpawnParameters)`. -/
def UWorld.SpawnActor (World : UWorld) (Class : UClass) (Transform : FTransform)
    (SpawnParameters : FActorSpawnParameters) : Engine (Option AActorRef) := do
  let Result := World.SpawnActorResult Class Transform SpawnParameters
  logCall (FEngineCall.SpawnActor Class Transform SpawnParameters Result)
  pure Result

/-- Engine `Actor->FinishSpawning(Transform)`: the second construction phase. -/
def AActor.FinishSpawning (Actor : AActorRef) (Transform : FTransform) : Engine Unit :=
  logCall (FEngineCall.FinishSpawning Actor Transform)

/-- Engine `CastChecked<AActor>(Object)`: aborts on null and on a non-actor. -/
def CastChecked_AActor (Object : Option UObjectRef) : Engine AActorRef :=
  checkfPtr (Cast_AActor Object) Fatal.CastCheckedFailed

/-- Engine `IsValid(Actor)`: the actor is not pending destruction. -/
def IsValid (Actor : AActorRef) : Engine Bool :=
  fun s => Except.ok ((s.Actors Actor.Id).bIsValid, s)

/-- Engine `Actor->Destroy()`: the actor becomes pending destruction. -/
def AActor.Destroy (Actor : AActorRef) : Engine Unit := do
  logCall (FEngineCall.Destroy Actor)
  modifyActor Actor (fun d => { d with bIsValid := false })

/-- Engine `Actor->SetActorTransform(NewTransform)`. -/
def AActor.SetActorTransform (Actor : AActorRef) (NewTransform : FTransform) : Engine Unit := do
  logCall (FEngineCall.SetActorTransform Actor NewTransform)
  modifyActor Actor (fun d => { d with Transform := NewTransform })

/-- Engine `Actor->SetActorLocation(NewLocation)`: only the location changes. -/
def AActor.SetActorLocation (Actor : AActorRef) (NewLocation : FVector) : Engine Unit := do
  logCall (FEngineCall.SetActorLocation Actor NewLocation)
  modifyActor Actor
    (fun d => { d with Transform := { d.Transform with Translation := NewLocation } })

/-- Engine `Actor->SetActorHiddenInGame(bNewHidden)`. -/
def AActor.SetActorHiddenInGame (Actor : AActorRef) (bNewHidden : Bool) : Engine Unit := do
  logCall (FEngineCall.SetActorHiddenInGame Actor bNewHidden)
  modifyActor Actor (fun d => { d with bHidden := bNewHidden })

/-- Engine `Actor->SetActorEnableCollision(bNewActorEnableCollision)`. -/
def AActor.SetActorEnableCollision (Actor : AActorRef) (bNewActorEnableCollision : Bool) :
    Engine Unit := do
  logCall (FEngineCall.SetActorEnableCollision Actor bNewActorEnableCollision)
  modifyActor Actor (fun d => { d with bActorEnableCollision := bNewActorEnableCollision })

/-- Engine `Actor->SetActorTickEnabled(bEnabled)`. -/
def AActor.SetActorTickEnabled (Actor : AActorRef) (bEnabled : Bool) : Engine Unit := do
  logCall (FEngineCall.SetActorTickEnabled Actor bEnabled)
  modifyActor Actor (fun d => { d with bActorTickEnabled := bEnabled })

/-- Invocation of a callback that was tested non-null: the callback runs on the
actor store and the invocation is logged. -/
def invokeCallback (Callback : FPoolCallback) (Data : FPoolObjectData)
    (c : FEngineCall) : Engine Unit :=
  fun s => Except.ok ((), { s with Actors := Callback Data s.Actors, Log := s.Log ++ [c] })

/-! ## The base factory (PoolFactory_UObject), reached through `Super::` -/

namespace UPoolFactory_UObject

/-- Modelled from the spec: the base-class hook `OnTakeFromPool_Implementation`,
which is not in the source file.  The base factory handles plain objects, which
have no placement; the hook does nothing. -/
def OnTakeFromPool_Implementation (_Object : Option UObjectRef) (_Transform : FTransform) :
    Engine Unit :=
  pure ()

/-- Modelled from the spec: the base-class hook `OnReturnToPool_Implementation`,
which is not in the source file; the hook does nothing. -/
def OnReturnToPool_Implementation (_Object : Option UObjectRef) : Engine Unit :=
  pure ()

/-- Modelled from the spec: the base-class hook
`OnChangedStateInPool_Implementation`, which is not in the source file; the hook
does nothing. -/
def OnChangedStateInPool_Implementation (_NewState : EPoolObjectState)
    (_InObject : Option UObjectRef) : Engine Unit :=
  pure ()

end UPoolFactory_UObject

/-! ## The actor factory -/

/-- The location where deactivated actors are placed,
`FVector(HALF_WORLD_MAX - HALF_WORLD_MAX * THRESH_VECTOR_NORMALIZED)`. -/
def VECTOR_HALF_WORLD_MAX (K : FEngineConstants) : FVector :=
  FVector.ofScalar (K.HALF_WORLD_MAX - K.HALF_WORLD_MAX * K.THRESH_VECTOR_NORMALIZED)

namespace UPoolFactory_Actor

/-- Spawns an actor with the engine's `SpawnActor`, construction deferred, and
finishes the construction between the two callbacks. -/
def SpawnNow_Implementation (Request : FSpawnRequest) : Engine (Option UObjectRef) := do
  let World ← checkfPtr (← GetWorld) Fatal.WorldIsNull
  let ClassToSpawn : TSubclassOf_AActor := { Class := Request.Class }
  let ClassToSpawn ← checkfPtr ClassToSpawn.Get Fatal.ClassToSpawnIsNull
  let SpawnParameters := FActorSpawnParameters.Default
  let SpawnParameters := { SpawnParameters with OverrideLevel := World.PersistentLevel }
  let SpawnParameters := { SpawnParameters with
    SpawnCollisionHandlingOverride := ESpawnActorCollisionHandlingMethod.AlwaysSpawn }
  let SpawnParameters := { SpawnParameters with bDeferConstruction := true }
  let SpawnParameters := { SpawnParameters with bNoFail := true }
  let NewActor ← checkfPtr (← World.SpawnActor ClassToSpawn Request.Transform SpawnParameters)
    Fatal.NewActorWasNotSpawned
  let PoolObjectData := FPoolObjectData.Default
  let PoolObjectData := { PoolObjectData with bIsActive := true }
  let PoolObjectData := { PoolObjectData with PoolObject := some NewActor.toUObject }
  let PoolObjectData := { PoolObjectData with Handle := Request.Handle }
  match Request.Callbacks.OnPreRegistered with
  | some OnPreRegistered =>
    invokeCallback OnPreRegistered PoolObjectData (FEngineCall.OnPreRegistered PoolObjectData)
  | none => pure ()
  match Cast_AActor (some NewActor.toUObject) with
  | some SpawnedActor => AActor.FinishSpawning SpawnedActor Request.Transform
  | none => pure ()
  match Request.Callbacks.OnPostSpawned with
  | some OnPostSpawned =>
    invokeCallback OnPostSpawned PoolObjectData (FEngineCall.OnPostSpawned PoolObjectData)
  | none => pure ()
  return some NewActor.toUObject

/-- Destroys the given actor with the engine's `Destroy`. -/
def Destroy_Implementation (Object : Option UObjectRef) : Engine Unit := do
  let Actor ← CastChecked_AActor Object
  checkf (← IsValid Actor) Fatal.ActorIsNotValid
  AActor.Destroy Actor

/-- Sets the transform of the actor before it is taken from its pool. -/
def OnTakeFromPool_Implementation (Object : Option UObjectRef) (Transform : FTransform) :
    Engine Unit := do
  UPoolFactory_UObject.OnTakeFromPool_Implementation Object Transform
  let Actor ← CastChecked_AActor Object
  AActor.SetActorTransform Actor Transform

/-- Moves the actor far away before it is returned to its pool. -/
def OnReturnToPool_Implementation (K : FEngineConstants) (Object : Option UObjectRef) :
    Engine Unit := do
  UPoolFactory_UObject.OnReturnToPool_Implementation Object
  let Actor ← CastChecked_AActor Object
  AActor.SetActorLocation Actor (VECTOR_HALF_WORLD_MAX K)

/-- Changes visibility, collision and ticking according to the new state. -/
def OnChangedStateInPool_Implementation (NewState : EPoolObjectState)
    (InObject : Option UObjectRef) : Engine Unit := do
  UPoolFactory_UObject.OnChangedStateInPool_Implementation NewState InObject
  let Actor ← CastChecked_AActor InObject
  let bActivate : Bool := decide (NewState = EPoolObjectState.Active)
  AActor.SetActorHiddenInGame Actor (!bActivate)
  AActor.SetActorEnableCollision Actor bActivate
  AActor.SetActorTickEnabled Actor bActivate

end UPoolFactory_Actor

/-! ## Vocabulary of the statements -/

/-- The object pointer that designates the given actor. -/
def ObjectOf (Actor : AActorRef) : Option UObjectRef :=
  some Actor.toUObject

/-- The spawn parameters `SpawnNow` hands to `SpawnActor` in the given world. -/
def DeferredSpawnParameters (World : UWorld) : FActorSpawnParameters :=
  { OverrideLevel := World.PersistentLevel
    SpawnCollisionHandlingOverride := ESpawnActorCollisionHandlingMethod.AlwaysSpawn
    bDeferConstruction := true
    bNoFail := true }

/-- The record `SpawnNow` builds for a new actor. -/
def SpawnedRecord (Request : FSpawnRequest) (NewActor : AActorRef) : FPoolObjectData :=
  { bIsActive := true, PoolObject := some NewActor.toUObject, Handle := Request.Handle }

/-- The effect of an optional callback on the actor store. -/
def applyCallback (Callback : Option FPoolCallback) (Data : FPoolObjectData)
    (Actors : FActorStore) : FActorStore :=
  match Callback with
  | some f => f Data Actors
  | none => Actors

/-- The log entries of an optional callback: one if it is set, none if it is null. -/
def callbackCalls (Callback : Option FPoolCallback) (c : FEngineCall) : List FEngineCall :=
  match Callback with
  | some _ => [c]
  | none => []

/-- The log entry is an invocation of `OnPreRegistered`. -/
def FEngineCall.isOnPreRegistered : FEngineCall → Bool
  | FEngineCall.OnPreRegistered _ => true
  | _ => false

/-- The log entry is an invocation of `OnPostSpawned`. -/
def FEngineCall.isOnPostSpawned : FEngineCall → Bool
  | FEngineCall.OnPostSpawned _ => true
  | _ => false

/-- The log entry is a call of `FinishSpawning`. -/
def FEngineCall.isFinishSpawning : FEngineCall → Bool
  | FEngineCall.FinishSpawning _ _ => true
  | _ => false

/-- The run aborted with a fatal assertion. -/
def isFatal {α : Type} (r : Except Fatal (α × FEngineState)) : Bool :=
  match r with
  | Except.error _ => true
  | Except.ok _ => false

/-! ## Concrete inputs -/

/-- The identity placement. -/
def Transform0 : FTransform :=
  { Rotation := { X := 0, Y := 0, Z := 0, W := 1 }
    Translation := { X := 0, Y := 0, Z := 0 }
    Scale3D := { X := 1, Y := 1, Z := 1 } }

/-- A placement away from the origin, turned and scaled. -/
def Transform1 : FTransform :=
  { Rotation := { X := 0, Y := 0, Z := 1, W := 0 }
    Translation := { X := 100, Y := 200, Z := 50 }
    Scale3D := { X := 2, Y := 2, Z := 2 } }

/-- A class that derives from `AActor`. -/
def ActorClass : UClass :=
  { Id := 1, bIsChildOfAActor := true }

/-- A class that does not derive from `AActor`. -/
def PlainClass : UClass :=
  { Id := 2, bIsChildOfAActor := false }

/-- An actor. -/
def Actor7 : AActorRef :=
  { Id := 7 }

/-- An object that is not an actor. -/
def PlainObject : UObjectRef :=
  { Id := 3, bIsA_AActor := false }

/-- A world whose `SpawnActor` always answers with `Actor7`. -/
def World0 : UWorld :=
  { PersistentLevel := some { Id := 0 }
    SpawnActorResult := fun _ _ _ => some Actor7 }

/-- A valid, visible, colliding, ticking actor at the identity placement. -/
def Data0 : AActorData :=
  { bIsValid := true
    bHidden := false
    bActorEnableCollision := true
    bActorTickEnabled := true
    Transform := Transform0 }

/-- A state with a world, every actor as `Data0`, and an empty log. -/
def State0 : FEngineState :=
  { World := some World0, Actors := fun _ => Data0, Log := [] }

/-- A callback that hides the object of the record. -/
def HideCallback : FPoolCallback :=
  fun Data Actors =>
    match Data.PoolObject with
    | some Obj => Function.update Actors Obj.Id { Actors Obj.Id with bHidden := true }
    | none => Actors

/-- A callback that stops the ticking of the object of the record. -/
def StopTickCallback : FPoolCallback :=
  fun Data Actors =>
    match Data.PoolObject with
    | some Obj => Function.update Actors Obj.Id { Actors Obj.Id with bActorTickEnabled := false }
    | none => Actors

/-- A request for an actor class with both callbacks set. -/
def Request0 : FSpawnRequest :=
  { Class := some ActorClass
    Transform := Transform1
    Handle := { Hash := 42 }
    Callbacks := { OnPreRegistered := some HideCallback, OnPostSpawned := some StopTickCallback } }

/-- A request for an actor class with both callbacks null. -/
def RequestNoCallbacks : FSpawnRequest :=
  { Class := some ActorClass
    Transform := Transform1
    Handle := { Hash := 43 }
    Callbacks := { OnPreRegistered := none, OnPostSpawned := none } }

/-- A request for a class that is not an actor class. -/
def RequestPlainClass : FSpawnRequest :=
  { Class := some PlainClass
    Transform := Transform1
    Handle := { Hash := 44 }
    Callbacks := { OnPreRegistered := none, OnPostSpawned := none } }

/-- A callback that advances the object of the record by one unit along `X`. -/
def AdvanceCallback : FPoolCallback :=
  fun Data Actors =>
    match Data.PoolObject with
    | some Obj =>
      Function.update Actors Obj.Id
        { Actors Obj.Id with
          Transform := { (Actors Obj.Id).Transform with
            Translation := { (Actors Obj.Id).Transform.Translation with
              X := (Actors Obj.Id).Transform.Translation.X + 1 } } }
    | none => Actors

/-- A callback that multiplies the `X` coordinate of the object of the record by
ten. -/
def TenfoldCallback : FPoolCallback :=
  fun Data Actors =>
    match Data.PoolObject with
    | some Obj =>
      Function.update Actors Obj.Id
        { Actors Obj.Id with
          Transform := { (Actors Obj.Id).Transform with
            Translation := { (Actors Obj.Id).Transform.Translation with
              X := (Actors Obj.Id).Transform.Translation.X * 10 } } }
    | none => Actors

/-- A request for an actor class whose callbacks are not idempotent and do not
commute: advance before, tenfold after. -/
def RequestCounting : FSpawnRequest :=
  { Class := some ActorClass
    Transform := Transform1
    Handle := { Hash := 45 }
    Callbacks :=
      { OnPreRegistered := some AdvanceCallback, OnPostSpawned := some TenfoldCallback } }

/-- Engine constants: half of a world of 2097152 units, threshold one hundredth. -/
def Constants0 : FEngineConstants :=
  { HALF_WORLD_MAX := 1048576, THRESH_VECTOR_NORMALIZED := 1 / 100 }

/-- The state `State0` after `Actor7` became pending destruction. -/
def StateDestroyed : FEngineState :=
  { World := some World0
    Actors := Function.update (fun _ => Data0) 7 { Data0 with bIsValid := false }
    Log := [] }

/-! ## Running the programs -/

open UPoolFactory_Actor

/-- Running a sequence: the first program, then the second on its result. -/
theorem Engine.bind_apply {α β : Type} (m : Engine α) (f : α → Engine β) (s : FEngineState) :
    (m >>= f) s = match m s with
      | Except.error e => Except.error e
      | Except.ok (a, s1) => f a s1 := rfl

/-- Running `pure`: the value, the state unchanged. -/
theorem Engine.pure_apply {α : Type} (a : α) (s : FEngineState) :
    (pure a : Engine α) s = Except.ok (a, s) := rfl

/-- The state hook on an actor: it succeeds, sets the three flags of that actor
and logs the three setters. -/
theorem OnChangedStateInPool_run (NewState : EPoolObjectState) (Actor : AActorRef)
    (s : FEngineState) :
    OnChangedStateInPool_Implementation NewState (ObjectOf Actor) s
      = Except.ok ((), { s with
          Actors := Function.update s.Actors Actor.Id
            { s.Actors Actor.Id with
              bHidden := !decide (NewState = EPoolObjectState.Active)
              bActorEnableCollision := decide (NewState = EPoolObjectState.Active)
              bActorTickEnabled := decide (NewState = EPoolObjectState.Active) }
          Log := s.Log ++
            [FEngineCall.SetActorHiddenInGame Actor (!decide (NewState = EPoolObjectState.Active)),
             FEngineCall.SetActorEnableCollision Actor (decide (NewState = EPoolObjectState.Active)),
             FEngineCall.SetActorTickEnabled Actor (decide (NewState = EPoolObjectState.Active))] }) := by
  simp [OnChangedStateInPool_Implementation,
    UPoolFactory_UObject.OnChangedStateInPool_Implementation, ObjectOf,
    CastChecked_AActor, Cast_AActor, AActorRef.toUObject, checkfPtr, AActor.SetActorHiddenInGame,
    AActor.SetActorEnableCollision, AActor.SetActorTickEnabled, logCall, modifyActor,
    Engine.bind_apply, Engine.pure_apply]

/-- The take hook on an actor: it succeeds, replaces the transform of that actor
and logs the setter. -/
theorem OnTakeFromPool_run (Actor : AActorRef) (Transform : FTransform) (s : FEngineState) :
    OnTakeFromPool_Implementation (ObjectOf Actor) Transform s
      = Except.ok ((), { s with
          Actors := Function.update s.Actors Actor.Id
            { s.Actors Actor.Id with Transform := Transform }
          Log := s.Log ++ [FEngineCall.SetActorTransform Actor Transform] }) := by
  simp [OnTakeFromPool_Implementation, UPoolFactory_UObject.OnTakeFromPool_Implementation,
    ObjectOf, CastChecked_AActor, Cast_AActor, AActorRef.toUObject, checkfPtr,
    AActor.SetActorTransform, logCall, modifyActor, Engine.bind_apply, Engine.pure_apply]

/-- The return hook on an actor: it succeeds, replaces the location of that actor
and logs the setter. -/
theorem OnReturnToPool_run (K : FEngineConstants) (Actor : AActorRef) (s : FEngineState) :
    OnReturnToPool_Implementation K (ObjectOf Actor) s
      = Except.ok ((), { s with
          Actors := Function.update s.Actors Actor.Id
            { s.Actors Actor.Id with
              Transform := { (s.Actors Actor.Id).Transform with
                Translation := VECTOR_HALF_WORLD_MAX K } }
          Log := s.Log ++ [FEngineCall.SetActorLocation Actor (VECTOR_HALF_WORLD_MAX K)] }) := by
  simp [OnReturnToPool_Implementation, UPoolFactory_UObject.OnReturnToPool_Implementation,
    ObjectOf, CastChecked_AActor, Cast_AActor, AActorRef.toUObject, checkfPtr,
    AActor.SetActorLocation, logCall, modifyActor, Engine.bind_apply, Engine.pure_apply]

/-! ## Running `SpawnNow` -/

/-- When the three assertions pass, `SpawnNow` returns the spawned actor; the
log grows by the `SpawnActor` call, the first callback if set, `FinishSpawning`,
and the second callback if set. -/
theorem SpawnNow_run (Request : FSpawnRequest) (s : FEngineState) (World : UWorld)
    (Class : UClass) (NewActor : AActorRef)
    (hWorld : s.World = some World)
    (hClass : TSubclassOf_AActor.Get { Class := Request.Class } = some Class)
    (hSpawn : World.SpawnActorResult Class Request.Transform (DeferredSpawnParameters World)
      = some NewActor) :
    SpawnNow_Implementation Request s
      = Except.ok (some NewActor.toUObject, { s with
          Actors := applyCallback Request.Callbacks.OnPostSpawned (SpawnedRecord Request NewActor)
            (applyCallback Request.Callbacks.OnPreRegistered (SpawnedRecord Request NewActor)
              s.Actors)
          Log := s.Log ++
            ([FEngineCall.SpawnActor Class Request.Transform (DeferredSpawnParameters World)
                (some NewActor)]
              ++ callbackCalls Request.Callbacks.OnPreRegistered
                (FEngineCall.OnPreRegistered (SpawnedRecord Request NewActor))
              ++ [FEngineCall.FinishSpawning NewActor Request.Transform]
              ++ callbackCalls Request.Callbacks.OnPostSpawned
                (FEngineCall.OnPostSpawned (SpawnedRecord Request NewActor))) }) := by
  have hSpawn2 : World.SpawnActorResult Class Request.Transform
      { OverrideLevel := World.PersistentLevel
        SpawnCollisionHandlingOverride := ESpawnActorCollisionHandlingMethod.AlwaysSpawn
        bDeferConstruction := true
        bNoFail := true } = some NewActor := hSpawn
  cases hPre : Request.Callbacks.OnPreRegistered <;>
  cases hPost : Request.Callbacks.OnPostSpawned <;>
  simp [SpawnNow_Implementation, GetWorld, checkfPtr, UWorld.SpawnActor, logCall,
    invokeCallback, AActor.FinishSpawning, Cast_AActor, AActorRef.toUObject,
    FActorSpawnParameters.Default, FPoolObjectData.Default, DeferredSpawnParameters,
    SpawnedRecord, applyCallback, callbackCalls, Engine.bind_apply, Engine.pure_apply,
    hWorld, hClass, hSpawn2, hPre, hPost]

/-- Without a world `SpawnNow` aborts at its first assertion. -/
theorem SpawnNow_fatal_world (Request : FSpawnRequest) (s : FEngineState)
    (hWorld : s.World = none) :
    SpawnNow_Implementation Request s = Except.error Fatal.WorldIsNull := by
  simp [SpawnNow_Implementation, GetWorld, checkfPtr, fatal, Engine.bind_apply, hWorld]

/-- When the class guard is null `SpawnNow` aborts at its second assertion. -/
theorem SpawnNow_fatal_class (Request : FSpawnRequest) (s : FEngineState) (World : UWorld)
    (hWorld : s.World = some World)
    (hClass : TSubclassOf_AActor.Get { Class := Request.Class } = none) :
    SpawnNow_Implementation Request s = Except.error Fatal.ClassToSpawnIsNull := by
  simp [SpawnNow_Implementation, GetWorld, checkfPtr, fatal, Engine.bind_apply,
    Engine.pure_apply, hWorld, hClass]

/-- When `SpawnActor` answers null `SpawnNow` aborts at its third assertion. -/
theorem SpawnNow_fatal_spawn (Request : FSpawnRequest) (s : FEngineState) (World : UWorld)
    (Class : UClass)
    (hWorld : s.World = some World)
    (hClass : TSubclassOf_AActor.Get { Class := Request.Class } = some Class)
    (hSpawn : World.SpawnActorResult Class Request.Transform (DeferredSpawnParameters World)
      = none) :
    SpawnNow_Implementation Request s = Except.error Fatal.NewActorWasNotSpawned := by
  have hSpawn2 : World.SpawnActorResult Class Request.Transform
      { OverrideLevel := World.PersistentLevel
        SpawnCollisionHandlingOverride := ESpawnActorCollisionHandlingMethod.AlwaysSpawn
        bDeferConstruction := true
        bNoFail := true } = none := hSpawn
  simp [SpawnNow_Implementation, GetWorld, checkfPtr, fatal, UWorld.SpawnActor, logCall,
    FActorSpawnParameters.Default, Engine.bind_apply, Engine.pure_apply,
    hWorld, hClass, hSpawn2]

/-- The class guard is non-null exactly for a non-null class that derives from
`AActor`. -/
theorem TSubclassOf_AActor_Get_eq_some (Cls : Option UClass) (Class : UClass) :
    TSubclassOf_AActor.Get { Class := Cls } = some Class ↔
      Cls = some Class ∧ Class.bIsChildOfAActor = true := by
  cases Cls with
  | none => simp [TSubclassOf_AActor.Get]
  | some c =>
    by_cases h : c.bIsChildOfAActor = true
    · simp [TSubclassOf_AActor.Get, h]
      intro hc; subst hc; exact h
    · simp [TSubclassOf_AActor.Get, h]
      intro hc; subst hc; simpa using h

/-- The class guard is null exactly for a null class and for a class that does
not derive from `AActor`. -/
theorem TSubclassOf_AActor_Get_eq_none (Cls : Option UClass) :
    TSubclassOf_AActor.Get { Class := Cls } = none ↔
      Cls = none ∨ ∃ Class : UClass, Cls = some Class ∧ Class.bIsChildOfAActor = false := by
  cases Cls with
  | none => simp [TSubclassOf_AActor.Get]
  | some c =>
    by_cases h : c.bIsChildOfAActor = true
    · simp [TSubclassOf_AActor.Get, h]
    · simp [TSubclassOf_AActor.Get, h]

/-- A run of `SpawnNow` that does not abort passed the three assertions, and
returns the actor `SpawnActor` answered with. -/
theorem SpawnNow_ok_inv (Request : FSpawnRequest) (s : FEngineState)
    (h : isFatal (SpawnNow_Implementation Request s) = false) :
    ∃ (World : UWorld) (Class : UClass) (NewActor : AActorRef),
      s.World = some World ∧
      TSubclassOf_AActor.Get { Class := Request.Class } = some Class ∧
      World.SpawnActorResult Class Request.Transform (DeferredSpawnParameters World)
        = some NewActor := by
  cases hWorld : s.World with
  | none =>
    rw [SpawnNow_fatal_world Request s hWorld] at h
    simp [isFatal] at h
  | some World =>
    cases hClass : TSubclassOf_AActor.Get { Class := Request.Class } with
    | none =>
      rw [SpawnNow_fatal_class Request s World hWorld hClass] at h
      simp [isFatal] at h
    | some Class =>
      cases hSpawn : World.SpawnActorResult Class Request.Transform
          (DeferredSpawnParameters World) with
      | none =>
        rw [SpawnNow_fatal_spawn Request s World Class hWorld hClass hSpawn] at h
        simp [isFatal] at h
      | some NewActor => exact ⟨World, Class, NewActor, rfl, rfl, hSpawn⟩

/-! ## Running `Destroy` -/

/-- On a null pointer and on a non-actor `Destroy` aborts at the checked cast. -/
theorem Destroy_fatal_cast (Object : Option UObjectRef) (s : FEngineState)
    (hCast : Cast_AActor Object = none) :
    Destroy_Implementation Object s = Except.error Fatal.CastCheckedFailed := by
  simp [Destroy_Implementation, CastChecked_AActor, checkfPtr, fatal, Engine.bind_apply, hCast]

/-- On an actor that is pending destruction `Destroy` aborts at its assertion. -/
theorem Destroy_fatal_invalid (Object : Option UObjectRef) (Actor : AActorRef) (s : FEngineState)
    (hCast : Cast_AActor Object = some Actor) (hValid : (s.Actors Actor.Id).bIsValid = false) :
    Destroy_Implementation Object s = Except.error Fatal.ActorIsNotValid := by
  simp [Destroy_Implementation, CastChecked_AActor, checkfPtr, checkf, fatal, IsValid,
    Engine.bind_apply, Engine.pure_apply, hCast, hValid]

/-- On a valid actor `Destroy` calls the engine's destroy on it, once. -/
theorem Destroy_run (Object : Option UObjectRef) (Actor : AActorRef) (s : FEngineState)
    (hCast : Cast_AActor Object = some Actor) (hValid : (s.Actors Actor.Id).bIsValid = true) :
    Destroy_Implementation Object s
      = Except.ok ((), { s with
          Actors := Function.update s.Actors Actor.Id { s.Actors Actor.Id with bIsValid := false }
          Log := s.Log ++ [FEngineCall.Destroy Actor] }) := by
  simp [Destroy_Implementation, CastChecked_AActor, checkfPtr, checkf, fatal, IsValid,
    AActor.Destroy, logCall, modifyActor, Engine.bind_apply, Engine.pure_apply, hCast, hValid]

/-! ## The contract of `SpawnNow` -/

/-- C1: when the three assertions of `SpawnNow` pass and both callbacks are set,
the run returns the spawned actor and the calls it made are, in this order,
`SpawnActor`, `OnPreRegistered`, `FinishSpawning`, `OnPostSpawned`; both
callbacks receive the same record, which is active, carries the handle of the
request and points to the spawned actor. -/
theorem SpawnNow_callbacks_around_FinishSpawning (Request : FSpawnRequest) (s : FEngineState)
    (World : UWorld) (Class : UClass) (NewActor : AActorRef)
    (OnPreRegistered OnPostSpawned : FPoolCallback)
    (hWorld : s.World = some World)
    (hClass : TSubclassOf_AActor.Get { Class := Request.Class } = some Class)
    (hSpawn : World.SpawnActorResult Class Request.Transform (DeferredSpawnParameters World)
      = some NewActor)
    (hPre : Request.Callbacks.OnPreRegistered = some OnPreRegistered)
    (hPost : Request.Callbacks.OnPostSpawned = some OnPostSpawned) :
    SpawnNow_Implementation Request s
      = Except.ok (some NewActor.toUObject, { s with
          Actors :=
            OnPostSpawned
              { bIsActive := true, PoolObject := some NewActor.toUObject, Handle := Request.Handle }
              (OnPreRegistered
                { bIsActive := true, PoolObject := some NewActor.toUObject,
                  Handle := Request.Handle }
                s.Actors)
          Log := s.Log ++
            [FEngineCall.SpawnActor Class Request.Transform (DeferredSpawnParameters World)
               (some NewActor),
             FEngineCall.OnPreRegistered
               { bIsActive := true, PoolObject := some NewActor.toUObject,
                 Handle := Request.Handle },
             FEngineCall.FinishSpawning NewActor Request.Transform,
             FEngineCall.OnPostSpawned
               { bIsActive := true, PoolObject := some NewActor.toUObject,
                 Handle := Request.Handle }] }) := by
  rw [SpawnNow_run Request s World Class NewActor hWorld hClass hSpawn]
  simp [hPre, hPost, applyCallback, callbackCalls, SpawnedRecord]

/-- C1 at `Request0` in `State0`: the three assertions pass, the run returns
`Actor7`, and the log is the four calls in order, with the record of handle 42. -/
theorem SpawnNow_callbacks_around_FinishSpawning_witness :
    State0.World = some World0 ∧
    TSubclassOf_AActor.Get { Class := Request0.Class } = some ActorClass ∧
    World0.SpawnActorResult ActorClass Request0.Transform (DeferredSpawnParameters World0)
      = some Actor7 ∧
    SpawnNow_Implementation Request0 State0
      = Except.ok (some Actor7.toUObject, { State0 with
          Actors :=
            StopTickCallback
              { bIsActive := true, PoolObject := some Actor7.toUObject, Handle := { Hash := 42 } }
              (HideCallback
                { bIsActive := true, PoolObject := some Actor7.toUObject,
                  Handle := { Hash := 42 } }
                State0.Actors)
          Log :=
            [FEngineCall.SpawnActor ActorClass Transform1 (DeferredSpawnParameters World0)
               (some Actor7),
             FEngineCall.OnPreRegistered
               { bIsActive := true, PoolObject := some Actor7.toUObject,
                 Handle := { Hash := 42 } },
             FEngineCall.FinishSpawning Actor7 Transform1,
             FEngineCall.OnPostSpawned
               { bIsActive := true, PoolObject := some Actor7.toUObject,
                 Handle := { Hash := 42 } }] }) :=
  ⟨rfl, rfl, rfl,
    SpawnNow_callbacks_around_FinishSpawning Request0 State0 World0 ActorClass Actor7
      HideCallback StopTickCallback rfl rfl rfl rfl rfl⟩

/-- C2, the claim as stated fails: for a world that always spawns and a request
whose class is non-null but does not derive from `AActor`, `SpawnNow` aborts at
its class assertion, although the world is not null, the class is not null, and
no `SpawnActor` call answers null. -/
theorem SpawnNow_fatal_on_non_actor_class :
    SpawnNow_Implementation RequestPlainClass State0
      = Except.error Fatal.ClassToSpawnIsNull ∧
    ¬ (State0.World = none ∨ RequestPlainClass.Class = none ∨
        ∃ (World : UWorld) (Class : UClass),
          State0.World = some World ∧ RequestPlainClass.Class = some Class ∧
          World.SpawnActorResult Class RequestPlainClass.Transform
            (DeferredSpawnParameters World) = none) := by
  refine ⟨SpawnNow_fatal_class RequestPlainClass State0 World0 rfl rfl, ?_⟩
  simp [State0, RequestPlainClass, World0]

/-- C2 as amended: `SpawnNow` aborts with a fatal assertion if and only if the
world is null, or the requested class is null or does not derive from `AActor`,
or `SpawnActor` answers null; in every other case it returns the actor that
`SpawnActor` answered with, which is not null. -/
theorem SpawnNow_fatal_iff (Request : FSpawnRequest) (s : FEngineState) :
    (isFatal (SpawnNow_Implementation Request s) = true ↔
      (s.World = none ∨
       (Request.Class = none ∨
         ∃ Class : UClass, Request.Class = some Class ∧ Class.bIsChildOfAActor = false) ∨
       ∃ (World : UWorld) (Class : UClass),
         s.World = some World ∧ Request.Class = some Class ∧ Class.bIsChildOfAActor = true ∧
         World.SpawnActorResult Class Request.Transform (DeferredSpawnParameters World) = none)) ∧
    (¬ (s.World = none ∨
       (Request.Class = none ∨
         ∃ Class : UClass, Request.Class = some Class ∧ Class.bIsChildOfAActor = false) ∨
       ∃ (World : UWorld) (Class : UClass),
         s.World = some World ∧ Request.Class = some Class ∧ Class.bIsChildOfAActor = true ∧
         World.SpawnActorResult Class Request.Transform (DeferredSpawnParameters World) = none) →
      ∃ (World : UWorld) (Class : UClass) (NewActor : AActorRef) (s1 : FEngineState),
        s.World = some World ∧ Request.Class = some Class ∧ Class.bIsChildOfAActor = true ∧
        World.SpawnActorResult Class Request.Transform (DeferredSpawnParameters World)
          = some NewActor ∧
        SpawnNow_Implementation Request s = Except.ok (some NewActor.toUObject, s1)) := by
  have hiff : isFatal (SpawnNow_Implementation Request s) = true ↔
      (s.World = none ∨
       (Request.Class = none ∨
         ∃ Class : UClass, Request.Class = some Class ∧ Class.bIsChildOfAActor = false) ∨
       ∃ (World : UWorld) (Class : UClass),
         s.World = some World ∧ Request.Class = some Class ∧ Class.bIsChildOfAActor = true ∧
         World.SpawnActorResult Class Request.Transform (DeferredSpawnParameters World)
           = none) := by
    cases hWorld : s.World with
    | none =>
      rw [SpawnNow_fatal_world Request s hWorld]
      simp [isFatal]
    | some World =>
      cases hClass : TSubclassOf_AActor.Get { Class := Request.Class } with
      | none =>
        rw [SpawnNow_fatal_class Request s World hWorld hClass]
        have h := (TSubclassOf_AActor_Get_eq_none Request.Class).1 hClass
        simp [isFatal, h]
      | some Class =>
        have h := (TSubclassOf_AActor_Get_eq_some Request.Class Class).1 hClass
        cases hSpawn : World.SpawnActorResult Class Request.Transform
            (DeferredSpawnParameters World) with
        | none =>
          rw [SpawnNow_fatal_spawn Request s World Class hWorld hClass hSpawn]
          simp [isFatal, h.1, h.2, hSpawn]
        | some NewActor =>
          rw [SpawnNow_run Request s World Class NewActor hWorld hClass hSpawn]
          simp [isFatal, h.1, h.2, hSpawn]
  refine ⟨hiff, ?_⟩
  intro hnot
  have hok : isFatal (SpawnNow_Implementation Request s) = false := by
    cases hf : isFatal (SpawnNow_Implementation Request s) with
    | false => rfl
    | true => exact absurd (hiff.1 hf) hnot
  obtain ⟨World, Class, NewActor, hWorld, hClass, hSpawn⟩ := SpawnNow_ok_inv Request s hok
  have h := (TSubclassOf_AActor_Get_eq_some Request.Class Class).1 hClass
  exact ⟨World, Class, NewActor, _, hWorld, h.1, h.2, hSpawn,
    SpawnNow_run Request s World Class NewActor hWorld hClass hSpawn⟩

/-- C2 as amended, at `Request0` in `State0`: none of the abort conditions holds
and the run returns `Actor7`, the actor `SpawnActor` answered with. -/
theorem SpawnNow_fatal_iff_witness :
    isFatal (SpawnNow_Implementation Request0 State0) = false ∧
    ∃ s1 : FEngineState,
      SpawnNow_Implementation Request0 State0 = Except.ok (some Actor7.toUObject, s1) := by
  have hnot : isFatal (SpawnNow_Implementation Request0 State0) ≠ true := by
    rw [SpawnNow_run Request0 State0 World0 ActorClass Actor7 rfl rfl rfl]
    simp [isFatal]
  obtain ⟨World, Class, NewActor, s1, hWorld, _, _, hSpawn, hrun⟩ :=
    (SpawnNow_fatal_iff Request0 State0).2 (fun h => hnot ((SpawnNow_fatal_iff Request0 State0).1.2 h))
  have hW : World = World0 := by
    have h2 : some World0 = some World := hWorld
    exact (Option.some.inj h2).symm
  subst hW
  have hA : NewActor = Actor7 := by
    have h2 : some Actor7 = some NewActor := hSpawn
    exact (Option.some.inj h2).symm
  subst hA
  exact ⟨by simpa using hnot, s1, hrun⟩

/-- C3: both callbacks are optional and each fires at most once.  When the three
assertions pass, whatever the callbacks of the request, `SpawnNow` completes and
returns the spawned actor; among the calls it made `OnPreRegistered` occurs once
if it is set and never if it is null, likewise `OnPostSpawned`, and every
`OnPreRegistered` entry comes before every `OnPostSpawned` entry.  The actor
store at the end is the store at the start after one run of `OnPreRegistered`,
if set, and then one run of `OnPostSpawned`, if set, each on the record of the
spawned actor; a null callback is not run.  With both callbacks null the calls
are `SpawnActor` and `FinishSpawning` only and the actor store is untouched. -/
theorem SpawnNow_callbacks_at_most_once (Request : FSpawnRequest) (s : FEngineState)
    (World : UWorld) (Class : UClass) (NewActor : AActorRef)
    (hWorld : s.World = some World)
    (hClass : TSubclassOf_AActor.Get { Class := Request.Class } = some Class)
    (hSpawn : World.SpawnActorResult Class Request.Transform (DeferredSpawnParameters World)
      = some NewActor) :
    ∃ (Calls : List FEngineCall) (s1 : FEngineState),
      SpawnNow_Implementation Request s = Except.ok (some NewActor.toUObject, s1) ∧
      s1.Log = s.Log ++ Calls ∧
      Calls.countP FEngineCall.isOnPreRegistered
        = (if Request.Callbacks.OnPreRegistered.isSome then 1 else 0) ∧
      Calls.countP FEngineCall.isOnPostSpawned
        = (if Request.Callbacks.OnPostSpawned.isSome then 1 else 0) ∧
      (∀ (i j : Nat) (c d : FEngineCall),
        Calls.get? i = some c → c.isOnPreRegistered = true →
        Calls.get? j = some d → d.isOnPostSpawned = true → i < j) ∧
      (Request.Callbacks.OnPreRegistered = none → Request.Callbacks.OnPostSpawned = none →
        s1.Actors = s.Actors ∧
        Calls =
          [FEngineCall.SpawnActor Class Request.Transform (DeferredSpawnParameters World)
             (some NewActor),
           FEngineCall.FinishSpawning NewActor Request.Transform]) ∧
      (∀ OnPreRegistered : FPoolCallback,
        Request.Callbacks.OnPreRegistered = some OnPreRegistered →
        Request.Callbacks.OnPostSpawned = none →
        s1.Actors =
          OnPreRegistered
            { bIsActive := true, PoolObject := some NewActor.toUObject,
              Handle := Request.Handle }
            s.Actors ∧
        Calls =
          [FEngineCall.SpawnActor Class Request.Transform (DeferredSpawnParameters World)
             (some NewActor),
           FEngineCall.OnPreRegistered
             { bIsActive := true, PoolObject := some NewActor.toUObject,
               Handle := Request.Handle },
           FEngineCall.FinishSpawning NewActor Request.Transform]) ∧
      (∀ OnPostSpawned : FPoolCallback,
        Request.Callbacks.OnPreRegistered = none →
        Request.Callbacks.OnPostSpawned = some OnPostSpawned →
        s1.Actors =
          OnPostSpawned
            { bIsActive := true, PoolObject := some NewActor.toUObject,
              Handle := Request.Handle }
            s.Actors ∧
        Calls =
          [FEngineCall.SpawnActor Class Request.Transform (DeferredSpawnParameters World)
             (some NewActor),
           FEngineCall.FinishSpawning NewActor Request.Transform,
           FEngineCall.OnPostSpawned
             { bIsActive := true, PoolObject := some NewActor.toUObject,
               Handle := Request.Handle }]) ∧
      (∀ OnPreRegistered OnPostSpawned : FPoolCallback,
        Request.Callbacks.OnPreRegistered = some OnPreRegistered →
        Request.Callbacks.OnPostSpawned = some OnPostSpawned →
        s1.Actors =
          OnPostSpawned
            { bIsActive := true, PoolObject := some NewActor.toUObject,
              Handle := Request.Handle }
            (OnPreRegistered
              { bIsActive := true, PoolObject := some NewActor.toUObject,
                Handle := Request.Handle }
              s.Actors) ∧
        Calls =
          [FEngineCall.SpawnActor Class Request.Transform (DeferredSpawnParameters World)
             (some NewActor),
           FEngineCall.OnPreRegistered
             { bIsActive := true, PoolObject := some NewActor.toUObject,
               Handle := Request.Handle },
           FEngineCall.FinishSpawning NewActor Request.Transform,
           FEngineCall.OnPostSpawned
             { bIsActive := true, PoolObject := some NewActor.toUObject,
               Handle := Request.Handle }]) := by
  refine ⟨_, _, SpawnNow_run Request s World Class NewActor hWorld hClass hSpawn, rfl,
    ?_, ?_, ?_, ?_, ?_, ?_, ?_⟩
  · cases Request.Callbacks.OnPreRegistered <;> cases Request.Callbacks.OnPostSpawned <;>
      simp [callbackCalls, List.countP_cons, FEngineCall.isOnPreRegistered]
  · cases Request.Callbacks.OnPreRegistered <;> cases Request.Callbacks.OnPostSpawned <;>
      simp [callbackCalls, List.countP_cons, FEngineCall.isOnPostSpawned]
  · intro i j c d hi hc hj hd
    cases hPre : Request.Callbacks.OnPreRegistered <;>
      cases hPost : Request.Callbacks.OnPostSpawned <;>
      rcases i with _ | _ | _ | _ | i <;> rcases j with _ | _ | _ | _ | j <;>
      simp [callbackCalls, hPre, hPost] at hi hj <;>
      (try subst hi) <;> (try subst hj) <;>
      simp [FEngineCall.isOnPreRegistered, FEngineCall.isOnPostSpawned] at hc hd ⊢
  · intro hPre hPost
    simp [hPre, hPost, applyCallback, callbackCalls]
  · intro OnPreRegistered hPre hPost
    simp [hPre, hPost, applyCallback, callbackCalls, SpawnedRecord]
  · intro OnPostSpawned hPre hPost
    simp [hPre, hPost, applyCallback, callbackCalls, SpawnedRecord]
  · intro OnPreRegistered OnPostSpawned hPre hPost
    simp [hPre, hPost, applyCallback, callbackCalls, SpawnedRecord]

/-- C3 at concrete inputs in `State0`.  With both callbacks null
(`RequestNoCallbacks`) the run completes, returns `Actor7`, logs `SpawnActor`
and `FinishSpawning` only, and no callback entry is in the log.  With
`AdvanceCallback` before and `TenfoldCallback` after (`RequestCounting`) the run
returns `Actor7`, each callback is logged once, and the `X` coordinate of
`Actor7` goes from 0 to 10: one advance by 1, then one multiplication by 10. -/
theorem SpawnNow_callbacks_at_most_once_witness :
    (∃ s1 : FEngineState,
      SpawnNow_Implementation RequestNoCallbacks State0
        = Except.ok (some Actor7.toUObject, s1) ∧
      s1.Actors = State0.Actors ∧
      s1.Log =
        [FEngineCall.SpawnActor ActorClass Transform1 (DeferredSpawnParameters World0)
           (some Actor7),
         FEngineCall.FinishSpawning Actor7 Transform1] ∧
      s1.Log.countP FEngineCall.isOnPreRegistered = 0 ∧
      s1.Log.countP FEngineCall.isOnPostSpawned = 0) ∧
    (∃ s1 : FEngineState,
      SpawnNow_Implementation RequestCounting State0
        = Except.ok (some Actor7.toUObject, s1) ∧
      (State0.Actors 7).Transform.Translation.X = 0 ∧
      (s1.Actors 7).Transform.Translation.X = 10 ∧
      s1.Log.countP FEngineCall.isOnPreRegistered = 1 ∧
      s1.Log.countP FEngineCall.isOnPostSpawned = 1) := by
  constructor
  · obtain ⟨Calls, s1, hrun, hlog, hpre, hpost, _, hnull, _, _, _⟩ :=
      SpawnNow_callbacks_at_most_once RequestNoCallbacks State0 World0 ActorClass Actor7
        rfl rfl rfl
    obtain ⟨hactors, hcalls⟩ := hnull rfl rfl
    have hlog2 : s1.Log = Calls := by simpa [State0] using hlog
    refine ⟨s1, hrun, hactors, ?_, ?_, ?_⟩
    · rw [hlog2, hcalls]
      rfl
    · rw [hlog2, hpre]
      rfl
    · rw [hlog2, hpost]
      rfl
  · obtain ⟨Calls, s1, hrun, hlog, hpre, hpost, _, _, _, _, hboth⟩ :=
      SpawnNow_callbacks_at_most_once RequestCounting State0 World0 ActorClass Actor7
        rfl rfl rfl
    obtain ⟨hactors, _⟩ := hboth AdvanceCallback TenfoldCallback rfl rfl
    have hlog2 : s1.Log = Calls := by simpa [State0] using hlog
    refine ⟨s1, hrun, ?_, ?_, ?_, ?_⟩
    · simp [State0, Data0, Transform0]
    · rw [hactors]
      simp [AdvanceCallback, TenfoldCallback, AActorRef.toUObject, Actor7, State0, Data0,
        Transform0, RequestCounting]
    · rw [hlog2, hpre]
      rfl
    · rw [hlog2, hpost]
      rfl

/-- C9: when the three assertions of `SpawnNow` pass, the guarded cast of the
spawned actor succeeds, and the run returns that actor after it called
`SpawnActor` with deferred construction and then `FinishSpawning`, exactly once,
on that actor with the transform of the request.  Every run that returns
normally returns an actor on which `FinishSpawning` was called in that run. -/
theorem SpawnNow_finishes_construction (Request : FSpawnRequest) (s : FEngineState) :
    (∀ (World : UWorld) (Class : UClass) (NewActor : AActorRef),
      s.World = some World →
      TSubclassOf_AActor.Get { Class := Request.Class } = some Class →
      World.SpawnActorResult Class Request.Transform (DeferredSpawnParameters World)
        = some NewActor →
      Cast_AActor (some NewActor.toUObject) = some NewActor ∧
      ∃ (Before After : List FEngineCall) (s1 : FEngineState),
        SpawnNow_Implementation Request s = Except.ok (some NewActor.toUObject, s1) ∧
        s1.Log = s.Log ++
          ([FEngineCall.SpawnActor Class Request.Transform (DeferredSpawnParameters World)
              (some NewActor)]
            ++ Before ++ [FEngineCall.FinishSpawning NewActor Request.Transform] ++ After) ∧
        (DeferredSpawnParameters World).bDeferConstruction = true ∧
        Before.countP FEngineCall.isFinishSpawning = 0 ∧
        After.countP FEngineCall.isFinishSpawning = 0) ∧
    (∀ (Returned : Option UObjectRef) (s1 : FEngineState),
      SpawnNow_Implementation Request s = Except.ok (Returned, s1) →
      ∃ (NewActor : AActorRef) (Calls : List FEngineCall),
        Returned = some NewActor.toUObject ∧
        s1.Log = s.Log ++ Calls ∧
        Calls.count (FEngineCall.FinishSpawning NewActor Request.Transform) = 1 ∧
        Calls.countP FEngineCall.isFinishSpawning = 1) := by
  constructor
  · intro World Class NewActor hWorld hClass hSpawn
    refine ⟨rfl, _, _, _, SpawnNow_run Request s World Class NewActor hWorld hClass hSpawn, rfl,
      rfl, ?_, ?_⟩
    · cases Request.Callbacks.OnPreRegistered <;>
        simp [callbackCalls, FEngineCall.isFinishSpawning]
    · cases Request.Callbacks.OnPostSpawned <;>
        simp [callbackCalls, FEngineCall.isFinishSpawning]
  · intro Returned s1 hrun
    have hok : isFatal (SpawnNow_Implementation Request s) = false := by
      rw [hrun]
      rfl
    obtain ⟨World, Class, NewActor, hWorld, hClass, hSpawn⟩ := SpawnNow_ok_inv Request s hok
    rw [SpawnNow_run Request s World Class NewActor hWorld hClass hSpawn] at hrun
    injection hrun with hrun
    injection hrun with hret hstate
    subst hret
    subst hstate
    refine ⟨NewActor, _, rfl, rfl, ?_, ?_⟩
    · cases Request.Callbacks.OnPreRegistered <;> cases Request.Callbacks.OnPostSpawned <;>
        simp [callbackCalls, List.count_cons]
    · cases Request.Callbacks.OnPreRegistered <;> cases Request.Callbacks.OnPostSpawned <;>
        simp [callbackCalls, List.countP_cons, FEngineCall.isFinishSpawning]

/-- C9 at `Request0` in `State0`: the run returns `Actor7`, and between the
deferred `SpawnActor` and the end of the run `FinishSpawning` is called on
`Actor7` with the transform of the request. -/
theorem SpawnNow_finishes_construction_witness :
    Cast_AActor (some Actor7.toUObject) = some Actor7 ∧
    ∃ (Before After : List FEngineCall) (s1 : FEngineState),
      SpawnNow_Implementation Request0 State0 = Except.ok (some Actor7.toUObject, s1) ∧
      s1.Log = State0.Log ++
        ([FEngineCall.SpawnActor ActorClass Request0.Transform (DeferredSpawnParameters World0)
            (some Actor7)]
          ++ Before ++ [FEngineCall.FinishSpawning Actor7 Request0.Transform] ++ After) ∧
      (DeferredSpawnParameters World0).bDeferConstruction = true ∧
      Before.countP FEngineCall.isFinishSpawning = 0 ∧
      After.countP FEngineCall.isFinishSpawning = 0 :=
  (SpawnNow_finishes_construction Request0 State0).1 World0 ActorClass Actor7 rfl rfl rfl

/-! ## The contract of `Destroy` -/

/-- C4: `Destroy` aborts with a fatal assertion on a null pointer, on an object
that is not an actor, and on an actor that is already invalid; on a valid actor
it returns after exactly one call, the engine's destroy of that actor, and the
hidden, collision and tick flags and the transform of every actor are as
before. -/
theorem Destroy_contract (s : FEngineState) :
    isFatal (Destroy_Implementation none s) = true ∧
    (∀ Object : UObjectRef, Object.bIsA_AActor = false →
      isFatal (Destroy_Implementation (some Object) s) = true) ∧
    (∀ Actor : AActorRef, (s.Actors Actor.Id).bIsValid = false →
      isFatal (Destroy_Implementation (ObjectOf Actor) s) = true) ∧
    (∀ Actor : AActorRef, (s.Actors Actor.Id).bIsValid = true →
      ∃ s1 : FEngineState,
        Destroy_Implementation (ObjectOf Actor) s = Except.ok ((), s1) ∧
        s1.Log = s.Log ++ [FEngineCall.Destroy Actor] ∧
        (∀ Id : Nat,
          (s1.Actors Id).bHidden = (s.Actors Id).bHidden ∧
          (s1.Actors Id).bActorEnableCollision = (s.Actors Id).bActorEnableCollision ∧
          (s1.Actors Id).bActorTickEnabled = (s.Actors Id).bActorTickEnabled ∧
          (s1.Actors Id).Transform = (s.Actors Id).Transform)) := by
  refine ⟨?_, ?_, ?_, ?_⟩
  · rw [Destroy_fatal_cast none s rfl]
    rfl
  · intro Object hObject
    rw [Destroy_fatal_cast (some Object) s (by simp [Cast_AActor, hObject])]
    rfl
  · intro Actor hValid
    rw [Destroy_fatal_invalid (ObjectOf Actor) Actor s rfl hValid]
    rfl
  · intro Actor hValid
    refine ⟨_, Destroy_run (ObjectOf Actor) Actor s rfl hValid, rfl, ?_⟩
    intro Id
    by_cases h : Id = Actor.Id
    · subst h; simp
    · simp [Function.update_noteq h]

/-- C4 at concrete inputs: in `State0` the object `PlainObject`, not an actor,
makes `Destroy` abort and the valid `Actor7` is destroyed with one engine call;
in `StateDestroyed`, where `Actor7` is pending destruction, `Destroy` aborts. -/
theorem Destroy_contract_witness :
    isFatal (Destroy_Implementation (some PlainObject) State0) = true ∧
    isFatal (Destroy_Implementation (ObjectOf Actor7) StateDestroyed) = true ∧
    ∃ s1 : FEngineState,
      Destroy_Implementation (ObjectOf Actor7) State0 = Except.ok ((), s1) ∧
      s1.Log = [FEngineCall.Destroy Actor7] ∧
      (s1.Actors 7).bHidden = false ∧
      (s1.Actors 7).Transform = Transform0 := by
  refine ⟨(Destroy_contract State0).2.1 PlainObject rfl,
    (Destroy_contract StateDestroyed).2.2.1 Actor7 (by simp [StateDestroyed, Actor7]), ?_⟩
  obtain ⟨s1, hrun, hlog, hframe⟩ := (Destroy_contract State0).2.2.2 Actor7 rfl
  refine ⟨s1, hrun, ?_, ?_, ?_⟩
  · simpa [State0] using hlog
  · rw [(hframe 7).1]
    rfl
  · rw [(hframe 7).2.2.2]
    rfl

/-! ## The contract of the pool hooks -/

/-- C5: `OnChangedStateInPool` is idempotent: on every actor, in every state and
for every `NewState`, both applications succeed and the actor store after the
second application is the store after the first. -/
theorem OnChangedStateInPool_idempotent (NewState : EPoolObjectState) (Actor : AActorRef)
    (s : FEngineState) :
    ∃ s1 s2 : FEngineState,
      OnChangedStateInPool_Implementation NewState (ObjectOf Actor) s = Except.ok ((), s1) ∧
      OnChangedStateInPool_Implementation NewState (ObjectOf Actor) s1 = Except.ok ((), s2) ∧
      s2.Actors = s1.Actors := by
  refine ⟨_, _, OnChangedStateInPool_run NewState Actor s,
    OnChangedStateInPool_run NewState Actor _, ?_⟩
  simp

/-- C6: after `OnChangedStateInPool` the three flags of the actor depend on
`NewState` alone: hidden is `NewState ≠ Active`, collision and tick are
`NewState = Active`, whatever the state before; `Active` gives a visible,
colliding, ticking actor and `Inactive` a hidden, non-colliding, non-ticking
one. -/
theorem OnChangedStateInPool_presentation (Actor : AActorRef) (s : FEngineState) :
    (∀ NewState : EPoolObjectState, ∃ s1 : FEngineState,
      OnChangedStateInPool_Implementation NewState (ObjectOf Actor) s = Except.ok ((), s1) ∧
      (s1.Actors Actor.Id).bHidden = !decide (NewState = EPoolObjectState.Active) ∧
      (s1.Actors Actor.Id).bActorEnableCollision = decide (NewState = EPoolObjectState.Active) ∧
      (s1.Actors Actor.Id).bActorTickEnabled = decide (NewState = EPoolObjectState.Active)) ∧
    (∃ s1 : FEngineState,
      OnChangedStateInPool_Implementation EPoolObjectState.Active (ObjectOf Actor) s
        = Except.ok ((), s1) ∧
      (s1.Actors Actor.Id).bHidden = false ∧
      (s1.Actors Actor.Id).bActorEnableCollision = true ∧
      (s1.Actors Actor.Id).bActorTickEnabled = true) ∧
    (∃ s1 : FEngineState,
      OnChangedStateInPool_Implementation EPoolObjectState.Inactive (ObjectOf Actor) s
        = Except.ok ((), s1) ∧
      (s1.Actors Actor.Id).bHidden = true ∧
      (s1.Actors Actor.Id).bActorEnableCollision = false ∧
      (s1.Actors Actor.Id).bActorTickEnabled = false) := by
  refine ⟨?_, ⟨_, OnChangedStateInPool_run EPoolObjectState.Active Actor s, ?_⟩,
    ⟨_, OnChangedStateInPool_run EPoolObjectState.Inactive Actor s, ?_⟩⟩
  · intro NewState
    exact ⟨_, OnChangedStateInPool_run NewState Actor s, by simp, by simp, by simp⟩
  · simp
  · simp

/-- C7: after `OnReturnToPool` the location of the actor is the point whose
three coordinates are `HALF_WORLD_MAX - HALF_WORLD_MAX * THRESH_VECTOR_NORMALIZED`,
whatever the location before; for `0 < HALF_WORLD_MAX` and
`0 < THRESH_VECTOR_NORMALIZED < 1` each coordinate is positive and strictly below
`HALF_WORLD_MAX`. -/
theorem OnReturnToPool_location (K : FEngineConstants) (Actor : AActorRef) (s : FEngineState) :
    ∃ s1 : FEngineState,
      OnReturnToPool_Implementation K (ObjectOf Actor) s = Except.ok ((), s1) ∧
      (s1.Actors Actor.Id).Transform.Translation =
        { X := K.HALF_WORLD_MAX - K.HALF_WORLD_MAX * K.THRESH_VECTOR_NORMALIZED
          Y := K.HALF_WORLD_MAX - K.HALF_WORLD_MAX * K.THRESH_VECTOR_NORMALIZED
          Z := K.HALF_WORLD_MAX - K.HALF_WORLD_MAX * K.THRESH_VECTOR_NORMALIZED } ∧
      (0 < K.HALF_WORLD_MAX → 0 < K.THRESH_VECTOR_NORMALIZED → K.THRESH_VECTOR_NORMALIZED < 1 →
        (0 < (s1.Actors Actor.Id).Transform.Translation.X ∧
          (s1.Actors Actor.Id).Transform.Translation.X < K.HALF_WORLD_MAX) ∧
        (0 < (s1.Actors Actor.Id).Transform.Translation.Y ∧
          (s1.Actors Actor.Id).Transform.Translation.Y < K.HALF_WORLD_MAX) ∧
        (0 < (s1.Actors Actor.Id).Transform.Translation.Z ∧
          (s1.Actors Actor.Id).Transform.Translation.Z < K.HALF_WORLD_MAX)) := by
  refine ⟨_, OnReturnToPool_run K Actor s, ?_, ?_⟩
  · simp [VECTOR_HALF_WORLD_MAX, FVector.ofScalar]
  · intro hH hT0 hT1
    have h1 : 0 < K.HALF_WORLD_MAX - K.HALF_WORLD_MAX * K.THRESH_VECTOR_NORMALIZED := by
      nlinarith
    have h2 : K.HALF_WORLD_MAX - K.HALF_WORLD_MAX * K.THRESH_VECTOR_NORMALIZED
        < K.HALF_WORLD_MAX := by
      nlinarith
    simp only [VECTOR_HALF_WORLD_MAX, FVector.ofScalar, Function.update_same]
    exact ⟨⟨h1, h2⟩, ⟨h1, h2⟩, ⟨h1, h2⟩⟩

/-- C7 at `Constants0`, `Actor7`, `State0`: the constants satisfy the bounds, the
actor moves from the origin to the point with coordinates 25952256/25, which is
positive and below 1048576. -/
theorem OnReturnToPool_location_witness :
    (0 : ℚ) < Constants0.HALF_WORLD_MAX ∧
    (0 : ℚ) < Constants0.THRESH_VECTOR_NORMALIZED ∧
    Constants0.THRESH_VECTOR_NORMALIZED < 1 ∧
    ∃ s1 : FEngineState,
      OnReturnToPool_Implementation Constants0 (ObjectOf Actor7) State0 = Except.ok ((), s1) ∧
      (s1.Actors 7).Transform.Translation
        = { X := 25952256 / 25, Y := 25952256 / 25, Z := 25952256 / 25 } ∧
      (0 < (s1.Actors 7).Transform.Translation.X ∧
        (s1.Actors 7).Transform.Translation.X < 1048576) := by
  have hH : (0 : ℚ) < Constants0.HALF_WORLD_MAX := by norm_num [Constants0]
  have hT0 : (0 : ℚ) < Constants0.THRESH_VECTOR_NORMALIZED := by norm_num [Constants0]
  have hT1 : Constants0.THRESH_VECTOR_NORMALIZED < 1 := by norm_num [Constants0]
  obtain ⟨s1, hrun, hloc, hbound⟩ := OnReturnToPool_location Constants0 Actor7 State0
  refine ⟨hH, hT0, hT1, s1, hrun, ?_, ?_⟩
  · have h7 : Actor7.Id = 7 := rfl
    rw [h7] at hloc
    rw [hloc]
    norm_num [Constants0]
  · have hb := (hbound hH hT0 hT1).1
    have h7 : Actor7.Id = 7 := rfl
    rw [h7] at hb
    simpa [Constants0] using hb

/-- C8: reuse after return.  The return sequence (`OnChangedStateInPool(Inactive)`
then `OnReturnToPool`) followed by the take sequence (`OnTakeFromPool(P2)` then
`OnChangedStateInPool(Active)`) succeeds and leaves the same actor with the
transform `P2` (location, rotation and scale), not hidden, colliding and
ticking; its validity and every other actor are as before. -/
theorem reuse_after_return (K : FEngineConstants) (Actor : AActorRef) (P2 : FTransform)
    (s : FEngineState) :
    ∃ s4 : FEngineState,
      (do
        OnChangedStateInPool_Implementation EPoolObjectState.Inactive (ObjectOf Actor)
        OnReturnToPool_Implementation K (ObjectOf Actor)
        OnTakeFromPool_Implementation (ObjectOf Actor) P2
        OnChangedStateInPool_Implementation EPoolObjectState.Active (ObjectOf Actor)) s
        = Except.ok ((), s4) ∧
      ∀ Id : Nat, s4.Actors Id =
        if Id = Actor.Id then
          { bIsValid := (s.Actors Actor.Id).bIsValid
            bHidden := false
            bActorEnableCollision := true
            bActorTickEnabled := true
            Transform := P2 }
        else s.Actors Id := by
  simp [Engine.bind_apply, OnChangedStateInPool_run, OnReturnToPool_run, OnTakeFromPool_run]
  intro Id
  by_cases hId : Id = Actor.Id
  · subst hId; simp
  · simp [Function.update_noteq hId, hId]

/-- C10: the placement hooks and the state hook touch disjoint parts of the
actor.  `OnTakeFromPool` and `OnReturnToPool` leave the hidden, collision and
tick flags of every actor unchanged, `OnReturnToPool` also the rotation and the
scale; `OnChangedStateInPool` leaves every transform unchanged; and
`OnChangedStateInPool` commutes with `OnTakeFromPool` and with `OnReturnToPool`:
both orders succeed and end in the same actor store. -/
theorem hooks_frame_and_commute (K : FEngineConstants) (NewState : EPoolObjectState)
    (Actor : AActorRef) (Transform : FTransform) (s : FEngineState) :
    (∃ s1 : FEngineState,
      OnTakeFromPool_Implementation (ObjectOf Actor) Transform s = Except.ok ((), s1) ∧
      ∀ Id : Nat,
        (s1.Actors Id).bHidden = (s.Actors Id).bHidden ∧
        (s1.Actors Id).bActorEnableCollision = (s.Actors Id).bActorEnableCollision ∧
        (s1.Actors Id).bActorTickEnabled = (s.Actors Id).bActorTickEnabled) ∧
    (∃ s1 : FEngineState,
      OnReturnToPool_Implementation K (ObjectOf Actor) s = Except.ok ((), s1) ∧
      ∀ Id : Nat,
        (s1.Actors Id).bHidden = (s.Actors Id).bHidden ∧
        (s1.Actors Id).bActorEnableCollision = (s.Actors Id).bActorEnableCollision ∧
        (s1.Actors Id).bActorTickEnabled = (s.Actors Id).bActorTickEnabled ∧
        (s1.Actors Id).Transform.Rotation = (s.Actors Id).Transform.Rotation ∧
        (s1.Actors Id).Transform.Scale3D = (s.Actors Id).Transform.Scale3D) ∧
    (∃ s1 : FEngineState,
      OnChangedStateInPool_Implementation NewState (ObjectOf Actor) s = Except.ok ((), s1) ∧
      ∀ Id : Nat, (s1.Actors Id).Transform = (s.Actors Id).Transform) ∧
    (∃ sA sB : FEngineState,
      (do
        OnChangedStateInPool_Implementation NewState (ObjectOf Actor)
        OnTakeFromPool_Implementation (ObjectOf Actor) Transform) s = Except.ok ((), sA) ∧
      (do
        OnTakeFromPool_Implementation (ObjectOf Actor) Transform
        OnChangedStateInPool_Implementation NewState (ObjectOf Actor)) s = Except.ok ((), sB) ∧
      sA.Actors = sB.Actors) ∧
    (∃ sA sB : FEngineState,
      (do
        OnChangedStateInPool_Implementation NewState (ObjectOf Actor)
        OnReturnToPool_Implementation K (ObjectOf Actor)) s = Except.ok ((), sA) ∧
      (do
        OnReturnToPool_Implementation K (ObjectOf Actor)
        OnChangedStateInPool_Implementation NewState (ObjectOf Actor)) s = Except.ok ((), sB) ∧
      sA.Actors = sB.Actors) := by
  refine ⟨⟨_, OnTakeFromPool_run Actor Transform s, ?_⟩,
    ⟨_, OnReturnToPool_run K Actor s, ?_⟩,
    ⟨_, OnChangedStateInPool_run NewState Actor s, ?_⟩, ?_, ?_⟩
  · intro Id
    by_cases h : Id = Actor.Id
    · subst h; simp
    · simp [Function.update_noteq h]
  · intro Id
    by_cases h : Id = Actor.Id
    · subst h; simp
    · simp [Function.update_noteq h]
  · intro Id
    by_cases h : Id = Actor.Id
    · subst h; simp
    · simp [Function.update_noteq h]
  · simp [Engine.bind_apply, OnChangedStateInPool_run, OnTakeFromPool_run]
  · simp [Engine.bind_apply, OnChangedStateInPool_run, OnReturnToPool_run]

end PoolManager
